import Mathlib

/-!
Verification of the boa command/usage-rendering library.

The development shallowly embeds the Go sources:
* `templatefuncs.go`: the template helper functions `sliceToCsv`,
  `trimRightSpace`, `rpad`, and the outcome structure of `tmpl`.
* `command.go`: the boa `Command`, its `OptionsTemplate` string (translated
  action-by-action into a Lean function of the fields the template reads),
  `HasOptions`, and the `UsageFunc`/`HelpFunc` closures (writer effects made
  explicit by state passing).
* `boabuilder.go`: the builder operations on the option/profile/valid-arg
  state of a command under construction.
* `viperbuilder.go`: the error-handling shape of the config-reading entry
  points (file system and viper read results are taken as parameters).
* Go's `text/tabwriter` as used by boa (cells separated by `'\t'`, lines by
  `'\n'`, space padding, flags 0), including the automatic flush that the
  writer performs after every line that contains no tab — boa never calls
  `Flush` itself, so that automatic flush is the only way bytes reach the
  output stream.
-/

namespace Boa

/-! ## Characters and low-level string helpers -/

/-- Splits a character list at every occurrence of `c`; the separators are
dropped.  `splitChar c [] = [[]]`, mirroring how a text stream with no
newline still holds one (empty) line. -/
def splitChar (c : Char) : List Char → List (List Char)
  | [] => [[]]
  | x :: xs =>
    if x = c then [] :: splitChar c xs
    else
      match splitChar c xs with
      | [] => [[x]]
      | h :: t => (x :: h) :: t

/-- Go's `unicode.IsSpace` restricted to the Latin-1 range, which is the only
range the rendered help text contains: space, `\t`, `\n`, `\v`, `\f`, `\r`,
NEL and NBSP. -/
def goIsSpace (ch : Char) : Bool :=
  ch = ' ' || ch = '\t' || ch = '\n' || ch = Char.ofNat 11 ||
  ch = Char.ofNat 12 || ch = '\r' || ch = Char.ofNat 0x85 || ch = Char.ofNat 0xA0

/-- `trimRightSpace` from templatefuncs.go: `strings.TrimRightFunc(s, unicode.IsSpace)`. -/
def trimRightSpace (s : String) : String :=
  ⟨(s.data.reverse.dropWhile goIsSpace).reverse⟩

/-- `rpad` from templatefuncs.go: `fmt.Sprintf("%-<padding>s", s)` — left
justifies `s` in a field of `padding` runes. -/
def rpad (s : String) (padding : Nat) : String :=
  s ++ ⟨List.replicate (padding - s.length) ' '⟩

/-- `sliceToCsv` from templatefuncs.go: `strings.Join(args, ", ")`. -/
def sliceToCsv : List String → String
  | [] => ""
  | [a] => a
  | a :: b :: rest => a ++ ", " ++ sliceToCsv (b :: rest)

/-! ## Data model

`Option` and `Profile` are the records from command.go / boabuilder.go
(renamed `Opt`/`Profile` because `Option` is a Lean builtin).  `Command`
carries the boa-specific fields (`opts`, `profiles`) together with the
observations of the embedded `cobra.Command` that `OptionsTemplate` reads;
the latter are computed by the external cobra library, so they appear here
as plain input fields. -/

structure Opt where
  args : List String
  desc : String
  deriving DecidableEq, Repr

structure Profile where
  args : List String
  opts : List String
  desc : String
  deriving DecidableEq, Repr

/-- Observations of one subcommand used by the template's command lists. -/
structure SubCmdInfo where
  name : String
  short : String
  isAvailableCommand : Bool
  groupID : String
  commandPath : String
  commandPathPadding : Nat
  namePadding : Nat
  isAdditionalHelpTopicCommand : Bool
  deriving DecidableEq, Repr

/-- Observations of one command group used by the template. -/
structure GroupInfo where
  id : String
  title : String
  deriving DecidableEq, Repr

structure Command where
  runnable : Bool
  useLine : String
  commandPath : String
  nameAndAliases : String
  aliases : List String
  hasExample : Bool
  exampleText : String
  hasAvailableSubCommands : Bool
  commands : List SubCmdInfo
  groups : List GroupInfo
  allChildCommandsHaveGroup : Bool
  opts : List Opt
  profiles : List Profile
  hasAvailableLocalFlags : Bool
  localFlagUsages : String
  hasAvailableInheritedFlags : Bool
  inheritedFlagUsages : String
  hasHelpSubCommands : Bool
  deriving DecidableEq, Repr

/-- `Command.HasOptions` from command.go:
`if c.Opts == nil || len(c.Opts) == 0 { return false }; return true`
(`nil` and the empty slice are both the empty list here). -/
def hasOptions (c : Command) : Bool :=
  !c.opts.isEmpty

/-! ## The options template

`Command.OptionsTemplate` returns a fixed Go text/template string; executing
that template on a `Command` is a deterministic function of the fields it
reads.  Each definition below is one contiguous piece of the template,
translated action-by-action; `execOptionsTemplate` concatenates them in
template order. -/

/-- `{{if .HasOptions}} [options]{{end}}` on the usage line. -/
def usageOptionsSuffix (c : Command) : String :=
  if hasOptions c then " [options]" else ""

/-- One iteration of `{{range .Opts }}\n  {{.Args | sliceToCsv}}\t{{.Desc}}{{end}}`. -/
def optionRows : List Opt → String
  | [] => ""
  | o :: os => "\n  " ++ sliceToCsv o.args ++ "\t" ++ o.desc ++ optionRows os

/-- `{{if .HasOptions}}\n\nOptions:{{range .Opts }}…{{end}}{{end}}`. -/
def optionsSection (c : Command) : String :=
  if hasOptions c then "\n\nOptions:" ++ optionRows c.opts else ""

/-- `\n  {{rpad .Name .NamePadding }} {{.Short}}` for one subcommand row. -/
def subCmdRow (s : SubCmdInfo) : String :=
  "\n  " ++ rpad s.name s.namePadding ++ " " ++ s.short

/-- The `Available Commands` / grouped-commands part of the template,
guarded by `{{if .HasAvailableSubCommands}}`. -/
def availableCommandsSection (c : Command) : String :=
  if c.groups.length = 0 then
    "\n\nAvailable Commands:" ++
      String.join (c.commands.map fun s =>
        if s.isAvailableCommand || s.name == "help" then subCmdRow s else "")
  else
    String.join (c.groups.map fun g =>
      "\n\n" ++ g.title ++
        String.join (c.commands.map fun s =>
          if (s.groupID == g.id) && (s.isAvailableCommand || s.name == "help") then
            subCmdRow s
          else "")) ++
    (if !c.allChildCommandsHaveGroup then
      "\n\nAdditional Commands:" ++
        String.join (c.commands.map fun s =>
          if (s.groupID == "") && (s.isAvailableCommand || s.name == "help") then
            subCmdRow s
          else "")
     else "")

/-- `{{if .HasHelpSubCommands}}\n\nAdditional help topics:…{{end}}` body. -/
def helpTopicsSection (c : Command) : String :=
  "\n\nAdditional help topics:" ++
    String.join (c.commands.map fun s =>
      if s.isAdditionalHelpTopicCommand then
        "\n  " ++ rpad s.commandPath s.commandPathPadding ++ " " ++ s.short
      else "")

/-- Execution of `Command.OptionsTemplate()` on a command: the template text
from command.go translated piece by piece, in order. -/
def execOptionsTemplate (c : Command) : String :=
  "Usage:" ++
  (if c.runnable then "\n  " ++ c.useLine else "") ++
  usageOptionsSuffix c ++
  (if c.hasAvailableSubCommands then "\n  " ++ c.commandPath ++ " [command]" else "") ++
  (if 0 < c.aliases.length then "\n\nAliases:\n  " ++ c.nameAndAliases else "") ++
  (if c.hasExample then "\n\nExamples:\n" ++ c.exampleText else "") ++
  (if c.hasAvailableSubCommands then availableCommandsSection c else "") ++
  optionsSection c ++
  (if c.hasAvailableLocalFlags then "\n\nFlags:\n" ++ trimRightSpace c.localFlagUsages else "") ++
  (if c.hasAvailableInheritedFlags then
    "\n\nGlobal Flags:\n" ++ trimRightSpace c.inheritedFlagUsages else "") ++
  (if c.hasHelpSubCommands then helpTopicsSection c else "") ++
  (if c.hasAvailableSubCommands then
    "\n\nUse \"" ++ c.commandPath ++ " [command] --help\" for more information about a command."
   else "") ++
  "\n"

/-- The template output a command with no declared Options is specified to
produce: the same concatenation as `execOptionsTemplate` with the
`[options]` usage-line suffix and the whole Options section absent.  Stated
from the spec's words, to be compared with the source translation. -/
def execTemplateNoOptionsSpec (c : Command) : String :=
  "Usage:" ++
  (if c.runnable then "\n  " ++ c.useLine else "") ++
  (if c.hasAvailableSubCommands then "\n  " ++ c.commandPath ++ " [command]" else "") ++
  (if 0 < c.aliases.length then "\n\nAliases:\n  " ++ c.nameAndAliases else "") ++
  (if c.hasExample then "\n\nExamples:\n" ++ c.exampleText else "") ++
  (if c.hasAvailableSubCommands then availableCommandsSection c else "") ++
  (if c.hasAvailableLocalFlags then "\n\nFlags:\n" ++ trimRightSpace c.localFlagUsages else "") ++
  (if c.hasAvailableInheritedFlags then
    "\n\nGlobal Flags:\n" ++ trimRightSpace c.inheritedFlagUsages else "") ++
  (if c.hasHelpSubCommands then helpTopicsSection c else "") ++
  (if c.hasAvailableSubCommands then
    "\n\nUse \"" ++ c.commandPath ++ " [command] --help\" for more information about a command."
   else "") ++
  "\n"

/-- Modelled from the spec: the Profiles rows of the options template.  The
`command.go` revision that declares the `Profiles` field and its template
section is not among the sources (only `boabuilder.go` and the test that
fixes the expected text refer to it); each Profile emits its alias/description
row followed by the indented `↳ Options:` continuation line carrying the
profile's option references comma-joined in declared order. -/
def profileRows : List Profile → String
  | [] => ""
  | p :: ps =>
      "\n  " ++ sliceToCsv p.args ++ "\t" ++ p.desc ++
      "\n    ↳ Options:\t" ++ sliceToCsv p.opts ++ profileRows ps

/-- Modelled from the spec: the Profiles section, present exactly when the
command declares at least one Profile. -/
def profilesSection (c : Command) : String :=
  if c.profiles.isEmpty then "" else "\n\nProfiles:" ++ profileRows c.profiles

/-- The characters of one rendered option row with its leading newline
stripped: two indent spaces, the comma-joined aliases, the column tab, the
description. -/
def optRowBody (o : Opt) : List Char :=
  ("  " ++ sliceToCsv o.args ++ "\t" ++ o.desc).data

/-- The characters of a profile's alias/description row (leading newline
stripped). -/
def profRowBody (p : Profile) : List Char :=
  ("  " ++ sliceToCsv p.args ++ "\t" ++ p.desc).data

/-- The characters of a profile's continuation row (leading newline
stripped): the indented `↳ Options:` label, the column tab, the
comma-joined option references. -/
def profContBody (p : Profile) : List Char :=
  ("    ↳ Options:\t" ++ sliceToCsv p.opts).data

/-- Modelled from the spec: the options template of the Profiles-supporting
revision — the source template with the Profiles section inserted directly
after the Options section. -/
def execOptionsTemplateWithProfiles (c : Command) : String :=
  "Usage:" ++
  (if c.runnable then "\n  " ++ c.useLine else "") ++
  usageOptionsSuffix c ++
  (if c.hasAvailableSubCommands then "\n  " ++ c.commandPath ++ " [command]" else "") ++
  (if 0 < c.aliases.length then "\n\nAliases:\n  " ++ c.nameAndAliases else "") ++
  (if c.hasExample then "\n\nExamples:\n" ++ c.exampleText else "") ++
  (if c.hasAvailableSubCommands then availableCommandsSection c else "") ++
  optionsSection c ++
  profilesSection c ++
  (if c.hasAvailableLocalFlags then "\n\nFlags:\n" ++ trimRightSpace c.localFlagUsages else "") ++
  (if c.hasAvailableInheritedFlags then
    "\n\nGlobal Flags:\n" ++ trimRightSpace c.inheritedFlagUsages else "") ++
  (if c.hasHelpSubCommands then helpTopicsSection c else "") ++
  (if c.hasAvailableSubCommands then
    "\n\nUse \"" ++ c.commandPath ++ " [command] --help\" for more information about a command."
   else "") ++
  "\n"

/-! ## The tab writer

boa pipes the executed template through Go's `text/tabwriter`
(`tabwriter.NewWriter(os.Stdout, minwidth, tabwidth, padding, ' ', 0)`;
`tabwidth` is irrelevant because the pad character is a space).  Cells are
terminated by `'\t'`, lines by `'\n'`.  A column of a contiguous block of
lines that all have a terminated cell in that column is padded to
`max minwidth (padding + widest cell)`; the final cell of each line is
written unpadded.  boa never calls `Flush`, so output is produced only by
the writer's automatic flush after each completed line that consists of a
single cell (such a line cannot influence later alignment); completed lines
after the last such flush, and the trailing unterminated fragment, stay
buffered and are never written. -/

/-- Number of cells of line `i` (0 when out of range). -/
def cellCount (lines : List (List (List Char))) (i : Nat) : Nat :=
  ((lines.get? i).map List.length).getD 0

/-- Rune count of cell `j` of line `i` (0 when out of range). -/
def cellLen (lines : List (List (List Char))) (i j : Nat) : Nat :=
  (((lines.get? i).bind (fun l => l.get? j)).map List.length).getD 0

/-- First line of the contiguous block around line `i` whose members all
have a tab-terminated cell in column `j`. -/
def runStart (lines : List (List (List Char))) (j : Nat) : Nat → Nat
  | 0 => 0
  | i + 1 => if j + 1 < cellCount lines i then runStart lines j i else i + 1

/-- Fuelled upward scan for the last line of that block. -/
def runEndAux (lines : List (List (List Char))) (j : Nat) : Nat → Nat → Nat
  | 0, i => i
  | fuel + 1, i => if j + 1 < cellCount lines (i + 1) then runEndAux lines j fuel (i + 1) else i

/-- Last line of the contiguous block around line `i` whose members all
have a tab-terminated cell in column `j`. -/
def runEnd (lines : List (List (List Char))) (j i : Nat) : Nat :=
  runEndAux lines j lines.length i

/-- Widest cell of column `j` over lines `s..e`. -/
def blockMax (lines : List (List (List Char))) (j s e : Nat) : Nat :=
  ((List.range (e + 1 - s)).map (fun d => cellLen lines (s + d) j)).foldr Nat.max 0

/-- Width of column `j` as seen from line `i`: at least `minw`, and `pad`
more than the widest cell of the column's block. -/
def colWidth (minw pad : Nat) (lines : List (List (List Char))) (i j : Nat) : Nat :=
  Nat.max minw (pad + blockMax lines j (runStart lines j i) (runEnd lines j i))

/-- Left-justify a cell in a field of `w` pad characters. -/
def padTo (w : Nat) (cell : List Char) : List Char :=
  cell ++ List.replicate (w - cell.length) ' '

/-- Write the cells of line `i`, padding every cell except the line's last. -/
def renderCellsAux (minw pad : Nat) (lines : List (List (List Char))) (i : Nat) :
    Nat → List (List Char) → List Char
  | _, [] => []
  | _, [last] => last
  | j, cell :: rest =>
      padTo (colWidth minw pad lines i j) cell ++ renderCellsAux minw pad lines i (j + 1) rest

/-- Format a flushed block of lines: each line's cells padded to the column
widths computed from that block. -/
def formatLines (minw pad : Nat) (lines : List (List (List Char))) : List (List Char) :=
  (List.range lines.length).map (fun i => renderCellsAux minw pad lines i 0 (lines.getD i []))

/-- Group the completed lines into the segments flushed by the automatic
flush: a segment closes after every single-cell line; a trailing group that
never meets a single-cell line is discarded (it stays buffered, and boa
never calls `Flush`). -/
def flushSegments (acc : List (List (List Char))) :
    List (List (List Char)) → List (List (List (List Char)))
  | [] => []
  | l :: rest =>
      if l.length = 1 then (acc ++ [l]) :: flushSegments [] rest
      else flushSegments (acc ++ [l]) rest

/-- The bytes the tab writer passes on to the underlying stream for the
template output `s`, with boa's configuration (space padding, flags 0, no
explicit `Flush`). -/
def boaTabRender (minw pad : Nat) (s : String) : String :=
  let allLines := (splitChar '\n' s.data).map (splitChar '\t')
  let segs := flushSegments [] allLines.dropLast
  ⟨List.flatten (segs.map (fun seg =>
    List.flatten ((formatLines minw pad seg).map (fun l => l ++ ['\n']))))⟩

/-! ## The render entry points

`Command.UsageFunc` wraps stdout in `tabwriter.NewWriter(os.Stdout, 8, 8, 8, ' ', 0)`,
`Command.HelpFunc` in `tabwriter.NewWriter(os.Stdout, 3, 3, 3, ' ', 0)`; both
then execute the supplied template (the options template throughout this
development) on the captured boa `Command`. -/

/-- Text reaching stdout from the usage path (`UsageFunc`, tab stops 8/8/8). -/
def usageRender (c : Command) : String :=
  boaTabRender 8 8 (execOptionsTemplate c)

/-- Text reaching stdout from the help path (`HelpFunc`, tab stops 3/3/3). -/
def helpRender (c : Command) : String :=
  boaTabRender 3 3 (execOptionsTemplate c)

/-- Help-path output of the Profiles-supporting template revision. -/
def helpRenderWithProfiles (c : Command) : String :=
  boaTabRender 3 3 (execOptionsTemplateWithProfiles c)

/-- The two process output streams the render functions can touch. -/
structure Streams where
  stdout : String
  stderr : String
  deriving DecidableEq, Repr

/-- One invocation of the `HelpFunc` closure: executes the options template
on the captured command into the stdout tab writer.  The closure reads the
command and writes text; it assigns no field of the command, which the
state-passing translation makes explicit by returning the command value. -/
def helpInvoke (c : Command) (io : Streams) : Command × Streams :=
  (c, { io with stdout := io.stdout ++ helpRender c })

/-- One invocation of the `UsageFunc` closure, additionally returning the
template-execution error (`none`: executing the total embedded template on a
`Command` value supplies every field the template reads). -/
def usageInvoke (c : Command) (io : Streams) : (Command × Streams) × Option String :=
  ((c, { io with stdout := io.stdout ++ usageRender c }), none)

/-! ## Outcome model of `tmpl` (templatefuncs.go)

```go
func tmpl(w io.Writer, text string, data interface{}) error {
    t := template.New("tmpl")
    t.Funcs(templateFuncs)
    template.Must(t.Parse(text))
    return t.Execute(w, data)
}
```

`template.Must` panics when `Parse` returns an error; an `Execute` error is
returned to the caller (`UsageFunc`/`HelpFunc`), which prints it with
`cmd.PrintErrln`.  Parsing and executing arbitrary template text is done by
the external `text/template` library, so those two outcomes enter the model
as parameters. -/

/-- How one call of a Go function ends: a normal return or a crash of the
whole process (an unrecovered panic). -/
inductive GoOutcome (α : Type) where
  | returned (a : α)
  | crashed (msg : String)
  deriving DecidableEq, Repr

/-- Whether the call ended in a normal return (as opposed to a process
crash). -/
def GoOutcome.isReturned {α : Type} : GoOutcome α → Bool
  | .returned _ => true
  | .crashed _ => false

/-- `tmpl`'s outcome given the library's parse and execute results: a parse
error crashes (via `template.Must`); otherwise the execute error, if any, is
returned. -/
def tmplOutcome (parseResult : Except String Unit) (execResult : Except String Unit) :
    GoOutcome (Option String) :=
  match parseResult with
  | .error e => .crashed e
  | .ok _ =>
      match execResult with
      | .error e => .returned (some e)
      | .ok _ => .returned none

/-- The `UsageFunc` closure around `tmpl`: the boolean records whether the
error was echoed on the command's error channel (`cmd.PrintErrln`).  The
closure returns `tmpl`'s error; a crash of `tmpl` propagates. -/
def usageFuncOutcome (parseResult execResult : Except String Unit) :
    GoOutcome (Option String) × Bool :=
  match tmplOutcome parseResult execResult with
  | .crashed m => (.crashed m, false)
  | .returned none => (.returned none, false)
  | .returned (some e) => (.returned (some e), true)

/-! ## Builder state (boabuilder.go)

The builder methods touch three fields of the command under construction:
`Opts`, `Profiles` and the embedded cobra command's `ValidArgs`. -/

structure BuildState where
  use : String
  opts : List Opt
  profiles : List Profile
  validArgs : List String
  deriving DecidableEq, Repr

/-- `NewCmd`: fresh command with the given use line, empty slices. -/
def newCmd (use : String) : BuildState :=
  { use := use, opts := [], profiles := [], validArgs := [] }

/-- `WithOptions`: `b.cmd.Opts = append(b.cmd.Opts, opts...)`. -/
def withOptions (b : BuildState) (os : List Opt) : BuildState :=
  { b with opts := b.opts ++ os }

/-- `WithValidOptions`: appends the new options, then appends to `ValidArgs`
the `Args` of every option then attached:

```go
b.cmd.Opts = append(b.cmd.Opts, opts...)
for _, opt := range b.cmd.Opts {
    b.cmd.ValidArgs = append(b.cmd.ValidArgs, opt.Args...)
}
``` -/
def withValidOptions (b : BuildState) (os : List Opt) : BuildState :=
  let opts' := b.opts ++ os
  { b with opts := opts', validArgs := b.validArgs ++ opts'.flatMap (·.args) }

/-- `WithProfiles`: `b.cmd.Profiles = append(b.cmd.Profiles, profs...)`. -/
def withProfiles (b : BuildState) (ps : List Profile) : BuildState :=
  { b with profiles := b.profiles ++ ps }

/-- `WithValidProfiles`: appends the new profiles, then appends to
`ValidArgs` the `Args` of every profile then attached. -/
def withValidProfiles (b : BuildState) (ps : List Profile) : BuildState :=
  let profiles' := b.profiles ++ ps
  { b with profiles := profiles', validArgs := b.validArgs ++ profiles'.flatMap (·.args) }

/-- `WithOptionsTemplate` installs the usage/help functions on the embedded
cobra command; it leaves `Opts`, `Profiles` and `ValidArgs` unchanged. -/
def withOptionsTemplate (b : BuildState) : BuildState := b

/-- `WithOptionsAndTemplate`: `b.WithOptions(opts...).WithOptionsTemplate()`. -/
def withOptionsAndTemplate (b : BuildState) (os : List Opt) : BuildState :=
  withOptionsTemplate (withOptions b os)

/-! ## Viper config builder (viperbuilder.go)

The file system and viper's reader are external, so each read-performing
entry point takes the read result as a parameter.  What the model keeps is
which entry points translate a read error into `log.Fatal` (process
termination) and which return normally. -/

/-- Outcome of a config entry point: a value, or process termination via
`log.Fatal`/`log.Fatalf`. -/
inductive CfgOutcome (α : Type) where
  | ok (a : α)
  | fatal (msg : String)
  deriving DecidableEq, Repr

/-- Whether the entry point returned a value (as opposed to terminating the
process via `log.Fatal`). -/
def CfgOutcome.isOk {α : Type} : CfgOutcome α → Bool
  | .ok _ => true
  | .fatal _ => false

/-- The viper configuration state the builder manipulates. -/
structure ViperState where
  configPaths : List String
  configName : String
  deriving DecidableEq, Repr

/-- `NewViperCfg`: a fresh empty viper instance. -/
def newViperCfg : ViperState :=
  { configPaths := [], configName := "" }

/-- `ReadConfig`: `if err != nil { log.Fatalf("Error reading config: %v", err) }`. -/
def readConfigB (b : ViperState) (readResult : Except String Unit) : CfgOutcome ViperState :=
  match readResult with
  | .error e => .fatal ("Error reading config: " ++ e)
  | .ok _ => .ok b

/-- `ReadInConfig`: `if err != nil { log.Fatalf("Error reading in config: %v", err) }`. -/
def readInConfigB (b : ViperState) (readResult : Except String Unit) : CfgOutcome ViperState :=
  match readResult with
  | .error e => .fatal ("Error reading in config: " ++ e)
  | .ok _ => .ok b

/-- `Build`: returns the wrapped viper object; performs no read. -/
def buildViper (b : ViperState) : ViperState := b

/-- `ReadInConfigAndBuild`: `b.ReadInConfig().Build()`. -/
def readInConfigAndBuildB (b : ViperState) (readResult : Except String Unit) :
    CfgOutcome ViperState :=
  match readInConfigB b readResult with
  | .fatal m => .fatal m
  | .ok b' => .ok (buildViper b')

/-- `NewDefaultViperCfg`: fatal only when `os.Getwd` fails; adds the working
directory and `XDG_CONFIG_HOME/<name>`, sets the config name, then calls
`b.cfg.ReadInConfig()` **discarding its error** — the read result never
affects the outcome. -/
def newDefaultViperCfgB (name xdgConfigHome : String) (getwdResult : Except String String)
    (readResult : Except String Unit) : CfgOutcome ViperState :=
  match getwdResult with
  | .error e => .fatal e
  | .ok cwd =>
      let b : ViperState :=
        { configPaths := [cwd, xdgConfigHome ++ "/" ++ name], configName := name }
      let _ := readResult
      .ok b

/-! ## Concrete scenario data

The command of the end-to-end test: `NewCmd("options").WithOptions(options...)
.WithOptionsTemplate().WithNoOp().Build()`, invoked with `-h`.  The
cobra-side observations are the ones cobra computes at help time for a root
command with a run function, no subcommands, and the single auto-installed
help flag: `UseLine()` is `"options [flags]"` and `LocalFlags().FlagUsages()`
is the pflag-formatted row for `-h, --help`. -/

/-- The two declared options of the scenario. -/
def scenarioOpts : List Opt :=
  [{ args := ["option1", "opt1"], desc := "opt1 description" },
   { args := ["option2"], desc := "opt2 description" }]

/-- The boa command of the scenario, its option list built by the builder. -/
def optionsCmd : Command :=
  { runnable := true
    useLine := "options [flags]"
    commandPath := "options"
    nameAndAliases := "options"
    aliases := []
    hasExample := false
    exampleText := ""
    hasAvailableSubCommands := false
    commands := []
    groups := []
    allChildCommandsHaveGroup := true
    opts := (withOptionsTemplate (withOptions (newCmd "options") scenarioOpts)).opts
    profiles := []
    hasAvailableLocalFlags := true
    localFlagUsages := "  -h, --help   help for options\n"
    hasAvailableInheritedFlags := false
    inheritedFlagUsages := ""
    hasHelpSubCommands := false }

/-- The expected help text fixed by the end-to-end test. -/
def expectedOptionsOutput : String :=
  "Usage:\n  options [flags] [options]\n\nOptions:\n  option1, opt1   opt1 description\n  option2         opt2 description\n\nFlags:\n  -h, --help   help for options\n"

/-- The two declared profiles of the `profiles` test command. -/
def scenarioProfiles : List Profile :=
  [{ args := ["profile1", "prof1"], opts := ["opt1", "option2"], desc := "prof1 description" },
   { args := ["profile2"], opts := ["option1"], desc := "prof2 description" }]

/-- The `profiles` command of the end-to-end test: the same two options plus
the two profiles. -/
def profilesCmd : Command :=
  { optionsCmd with
    useLine := "profiles [flags]"
    commandPath := "profiles"
    nameAndAliases := "profiles"
    profiles := (withProfiles (withOptions (newCmd "profiles") scenarioOpts) scenarioProfiles).profiles
    localFlagUsages := "  -h, --help   help for profiles\n" }

/-- The expected help text with profiles fixed by the end-to-end test. -/
def expectedProfilesOutput : String :=
  "Usage:\n  profiles [flags] [options]\n\nOptions:\n  option1, opt1   opt1 description\n  option2         opt2 description\n\nProfiles:\n  profile1, prof1   prof1 description\n    ↳ Options:      opt1, option2\n  profile2          prof2 description\n    ↳ Options:      option1\n\nFlags:\n  -h, --help   help for profiles\n"

/-- A builder sequence producing two options with the same first alias. -/
def dupAliasCmd : BuildState :=
  withOptionsTemplate (withOptions (newCmd "install")
    [{ args := ["a"], desc := "first" }, { args := ["a"], desc := "second" }])

/-! # Theorems -/

/-! ## String and split lemmas -/

theorem data_append (s t : String) : (s ++ t).data = s.data ++ t.data := rfl

theorem str_append_empty (s : String) : s ++ "" = s := by
  cases s with
  | mk d => exact congrArg String.mk (List.append_nil d)

theorem str_append_assoc (a b c : String) : a ++ b ++ c = a ++ (b ++ c) := by
  cases a; cases b; cases c
  exact congrArg String.mk (List.append_assoc ..)

theorem splitChar_of_not_mem {c : Char} : ∀ {l : List Char}, c ∉ l → splitChar c l = [l]
  | [], _ => rfl
  | x :: xs, h => by
    have hx : ¬x = c := fun e => h (by simp [e])
    have hxs : c ∉ xs := fun m => h (List.mem_cons_of_mem _ m)
    simp [splitChar, hx, splitChar_of_not_mem hxs]

theorem splitChar_append_cons (c : Char) {l₁ : List Char} (l₂ : List Char) (h : c ∉ l₁) :
    splitChar c (l₁ ++ c :: l₂) = l₁ :: splitChar c l₂ := by
  induction l₁ with
  | nil => simp [splitChar]
  | cons x xs ih =>
    have hx : ¬x = c := fun e => h (by simp [e])
    have hxs : c ∉ xs := fun m => h (List.mem_cons_of_mem _ m)
    simp [splitChar, hx, ih hxs]

theorem sliceToCsv_not_mem {ch : Char} (hc : ch ∉ (", " : String).data) :
    ∀ args : List String, (∀ a ∈ args, ch ∉ a.data) → ch ∉ (sliceToCsv args).data
  | [], _ => by simp [sliceToCsv]
  | [a], h => by simpa [sliceToCsv] using h a (by simp)
  | a :: b :: rest, h => by
    have ih := sliceToCsv_not_mem hc (b :: rest) fun x hx => h x (List.mem_cons_of_mem _ hx)
    intro hm
    rw [show sliceToCsv (a :: b :: rest) = a ++ ", " ++ sliceToCsv (b :: rest) from rfl,
      data_append, data_append] at hm
    rcases List.mem_append.1 hm with hm | hm
    · rcases List.mem_append.1 hm with hm | hm
      · exact h a (by simp) hm
      · exact hc hm
    · exact ih hm

theorem optRowBody_not_mem {o : Opt} (hargs : ∀ a ∈ o.args, '\n' ∉ a.data)
    (hdesc : '\n' ∉ o.desc.data) : '\n' ∉ optRowBody o := by
  intro hm
  rw [optRowBody, data_append, data_append, data_append] at hm
  rcases List.mem_append.1 hm with hm | hm
  · rcases List.mem_append.1 hm with hm | hm
    · rcases List.mem_append.1 hm with hm | hm
      · exact absurd hm (by decide)
      · exact sliceToCsv_not_mem (by decide) o.args hargs hm
    · exact absurd hm (by decide)
  · exact hdesc hm

theorem profRowBody_not_mem {p : Profile} (hargs : ∀ a ∈ p.args, '\n' ∉ a.data)
    (hdesc : '\n' ∉ p.desc.data) : '\n' ∉ profRowBody p := by
  intro hm
  rw [profRowBody, data_append, data_append, data_append] at hm
  rcases List.mem_append.1 hm with hm | hm
  · rcases List.mem_append.1 hm with hm | hm
    · rcases List.mem_append.1 hm with hm | hm
      · exact absurd hm (by decide)
      · exact sliceToCsv_not_mem (by decide) p.args hargs hm
    · exact absurd hm (by decide)
  · exact hdesc hm

theorem profContBody_not_mem {p : Profile} (hopts : ∀ r ∈ p.opts, '\n' ∉ r.data) :
    '\n' ∉ profContBody p := by
  intro hm
  rw [profContBody, data_append] at hm
  rcases List.mem_append.1 hm with hm | hm
  · exact absurd hm (by decide)
  · exact sliceToCsv_not_mem (by decide) p.opts hopts hm

/-! ## Row-extraction lemmas for the rendered sections -/

theorem optionRows_cons_data (o : Opt) (os : List Opt) :
    (optionRows (o :: os)).data = '\n' :: (optRowBody o ++ (optionRows os).data) := by
  simp only [optionRows, optRowBody, data_append, List.append_assoc]
  rfl

theorem splitChar_optionRows :
    ∀ (os : List Opt) (l₁ : List Char), '\n' ∉ l₁ → (∀ o ∈ os, '\n' ∉ optRowBody o) →
      splitChar '\n' (l₁ ++ (optionRows os).data) = l₁ :: os.map optRowBody
  | [], l₁, hl, _ => by simp [optionRows, splitChar_of_not_mem hl]
  | o :: os, l₁, hl, h => by
    have hbody : '\n' ∉ optRowBody o := h o (by simp)
    have ih := splitChar_optionRows os (optRowBody o) hbody
      fun x hx => h x (List.mem_cons_of_mem _ hx)
    rw [optionRows_cons_data, splitChar_append_cons _ _ hl, ih]
    simp

theorem profileRows_cons_data (p : Profile) (ps : List Profile) :
    (profileRows (p :: ps)).data =
      '\n' :: (profRowBody p ++ '\n' :: (profContBody p ++ (profileRows ps).data)) := by
  simp only [profileRows, profRowBody, profContBody, data_append, List.append_assoc]
  rfl

theorem splitChar_profileRows :
    ∀ (ps : List Profile) (l₁ : List Char), '\n' ∉ l₁ →
      (∀ p ∈ ps, '\n' ∉ profRowBody p ∧ '\n' ∉ profContBody p) →
      splitChar '\n' (l₁ ++ (profileRows ps).data) =
        l₁ :: ps.flatMap (fun p => [profRowBody p, profContBody p])
  | [], l₁, hl, _ => by simp [profileRows, splitChar_of_not_mem hl]
  | p :: ps, l₁, hl, h => by
    have hrow : '\n' ∉ profRowBody p := (h p (by simp)).1
    have hcont : '\n' ∉ profContBody p := (h p (by simp)).2
    have ih := splitChar_profileRows ps (profContBody p) hcont
      fun x hx => h x (List.mem_cons_of_mem _ hx)
    rw [profileRows_cons_data, splitChar_append_cons _ _ hl,
      splitChar_append_cons _ _ hrow, ih]
    simp

set_option maxRecDepth 100000 in
/-- **C1.** For the command named `options` built with exactly the two
declared Options and the options template applied, invoking the help flag
renders, byte for byte, the Usage / Options / Flags block fixed by the
end-to-end test. -/
theorem C1_options_help_exact : helpRender optionsCmd = expectedOptionsOutput := by
  decide

set_option maxRecDepth 400000 in
/-- Supporting evidence for the spec-modelled Profiles section: on the
`profiles` test command, the modelled template revision reproduces the
expected help text of the end-to-end test byte for byte. -/
theorem profiles_help_exact :
    helpRenderWithProfiles profilesCmd = expectedProfilesOutput := by
  decide

/-- **C2.** For every Command with a non-empty `Opts` sequence whose fields
contain no newline, the Options section of the template output consists of
the blank separator line, the `Options:` header, and then exactly one row
per declared Option, in declaration order, each row being the indent, the
comma-joined alias list, the column tab and the description. -/
theorem C2_option_rows (c : Command) (hne : c.opts ≠ [])
    (h : ∀ o ∈ c.opts, (∀ a ∈ o.args, '\n' ∉ a.data) ∧ '\n' ∉ o.desc.data) :
    splitChar '\n' (optionsSection c).data =
      [[], [], "Options:".data] ++
        c.opts.map (fun o => ("  " ++ sliceToCsv o.args ++ "\t" ++ o.desc).data) ∧
    (splitChar '\n' (optionsSection c).data).length = c.opts.length + 3 := by
  have hops : hasOptions c = true := by
    simp [hasOptions, List.isEmpty_iff, hne]
  have hmain : splitChar '\n' (optionsSection c).data =
      [[], [], "Options:".data] ++ c.opts.map optRowBody := by
    rw [optionsSection, if_pos hops]
    have hdata : (("\n\nOptions:" : String) ++ optionRows c.opts).data =
        '\n' :: '\n' :: ("Options:".data ++ (optionRows c.opts).data) := by
      rw [data_append]; rfl
    rw [hdata]
    have hstep : splitChar '\n' ('\n' :: '\n' :: ("Options:".data ++ (optionRows c.opts).data)) =
        [] :: [] :: splitChar '\n' ("Options:".data ++ (optionRows c.opts).data) := by
      simp [splitChar]
    rw [hstep, splitChar_optionRows c.opts "Options:".data (by decide)
      (fun o ho => optRowBody_not_mem (h o ho).1 (h o ho).2)]
    simp
  refine ⟨?_, ?_⟩
  · rw [hmain]; simp [optRowBody]
  · rw [hmain]; simp

/-- Witness for C2 at the test command. -/
theorem C2_option_rows_witness :
    splitChar '\n' (optionsSection optionsCmd).data =
      [[], [], "Options:".data] ++
        optionsCmd.opts.map (fun o => ("  " ++ sliceToCsv o.args ++ "\t" ++ o.desc).data) ∧
    (splitChar '\n' (optionsSection optionsCmd).data).length = optionsCmd.opts.length + 3 :=
  C2_option_rows optionsCmd (by decide) (by decide)

/-- **C3.** `HasOptions` is false exactly when the `Opts` sequence is empty,
and for such a Command the template output carries neither the `[options]`
usage-line suffix nor the Options section: it equals the spec's
options-free rendering. -/
theorem C3_no_options_sections (c : Command) :
    (hasOptions c = false ↔ c.opts = []) ∧
    (c.opts = [] →
      usageOptionsSuffix c = "" ∧ optionsSection c = "" ∧
      execOptionsTemplate c = execTemplateNoOptionsSpec c) := by
  constructor
  · simp [hasOptions, List.isEmpty_iff]
  · intro hemp
    have hf : hasOptions c = false := by simp [hasOptions, hemp]
    refine ⟨by simp [usageOptionsSuffix, hf], by simp [optionsSection, hf], ?_⟩
    simp [execOptionsTemplate, execTemplateNoOptionsSpec, usageOptionsSuffix, optionsSection, hf,
      str_append_empty, str_append_assoc]

/-- Witness for C3 at a command with no options. -/
theorem C3_no_options_sections_witness :
    hasOptions { optionsCmd with opts := [] } = false ∧
    usageOptionsSuffix { optionsCmd with opts := [] } = "" ∧
    optionsSection { optionsCmd with opts := [] } = "" ∧
    execOptionsTemplate { optionsCmd with opts := [] } =
      execTemplateNoOptionsSpec { optionsCmd with opts := [] } := by
  have h := C3_no_options_sections { optionsCmd with opts := [] }
  exact ⟨h.1.mpr rfl, (h.2 rfl).1, (h.2 rfl).2.1, (h.2 rfl).2.2⟩

/-- **C4.** A Command with no Profiles renders no Profiles section at all;
with Profiles (and newline-free fields), the Profiles section consists of
the separator line, the `Profiles:` header, and per Profile, in order, its
alias/description row immediately followed by the indented continuation row
`↳ Options:` carrying the Profile's referenced option identifiers
comma-joined in declared order. -/
theorem C4_profiles_rows (c : Command)
    (h : ∀ p ∈ c.profiles,
      (∀ a ∈ p.args, '\n' ∉ a.data) ∧ '\n' ∉ p.desc.data ∧ (∀ r ∈ p.opts, '\n' ∉ r.data)) :
    (c.profiles = [] → profilesSection c = "") ∧
    (c.profiles ≠ [] →
      splitChar '\n' (profilesSection c).data =
        [[], [], "Profiles:".data] ++
          c.profiles.flatMap (fun p =>
            [("  " ++ sliceToCsv p.args ++ "\t" ++ p.desc).data,
             ("    ↳ Options:\t" ++ sliceToCsv p.opts).data])) := by
  constructor
  · intro hemp
    simp [profilesSection, hemp]
  · intro hne
    have hne' : c.profiles.isEmpty = false := by
      simp [List.isEmpty_iff, hne]
    rw [profilesSection, hne']
    simp only [Bool.false_eq_true, if_false]
    have hdata : (("\n\nProfiles:" : String) ++ profileRows c.profiles).data =
        '\n' :: '\n' :: ("Profiles:".data ++ (profileRows c.profiles).data) := by
      rw [data_append]; rfl
    rw [hdata]
    have hstep : splitChar '\n'
        ('\n' :: '\n' :: ("Profiles:".data ++ (profileRows c.profiles).data)) =
        [] :: [] :: splitChar '\n' ("Profiles:".data ++ (profileRows c.profiles).data) := by
      simp [splitChar]
    rw [hstep, splitChar_profileRows c.profiles "Profiles:".data (by decide)
      (fun p hp => ⟨profRowBody_not_mem (h p hp).1 (h p hp).2.1,
        profContBody_not_mem (h p hp).2.2⟩)]
    simp [profRowBody, profContBody]

/-- Witness for C4 at the profiles test command. -/
theorem C4_profiles_rows_witness :
    splitChar '\n' (profilesSection profilesCmd).data =
      [[], [], "Profiles:".data] ++
        profilesCmd.profiles.flatMap (fun p =>
          [("  " ++ sliceToCsv p.args ++ "\t" ++ p.desc).data,
           ("    ↳ Options:\t" ++ sliceToCsv p.opts).data]) :=
  (C4_profiles_rows profilesCmd (by decide)).2 (by decide)

/-- **C5, counterexample.** A template whose parsing fails does not make the
renderer return: `template.Must` turns the parse error into a crash of the
process, refuting the claim that a malformed template string never aborts
the program. -/
theorem C5_parse_failure_aborts :
    tmplOutcome (Except.error "template: tmpl:1: unclosed action") (Except.ok ()) =
      GoOutcome.crashed "template: tmpl:1: unclosed action" ∧
    (tmplOutcome (Except.error "template: tmpl:1: unclosed action")
      (Except.ok ())).isReturned = false := by
  exact ⟨rfl, rfl⟩

/-- **C5, amended.** A parse failure crashes the process via
`template.Must`; only an execution failure is returned to the caller, which
prints it on the command's error channel and returns normally. -/
theorem C5_template_error_behavior (pe ee : String) :
    tmplOutcome (Except.error pe) (Except.ok ()) = GoOutcome.crashed pe ∧
    tmplOutcome (Except.error pe) (Except.error ee) = GoOutcome.crashed pe ∧
    tmplOutcome (Except.ok ()) (Except.error ee) = GoOutcome.returned (some ee) ∧
    usageFuncOutcome (Except.ok ()) (Except.error ee) = (GoOutcome.returned (some ee), true) ∧
    tmplOutcome (Except.ok ()) (Except.ok ()) = GoOutcome.returned none ∧
    usageFuncOutcome (Except.ok ()) (Except.ok ()) = (GoOutcome.returned none, false) :=
  ⟨rfl, rfl, rfl, rfl, rfl, rfl⟩

/-- **C6.** Rendering is deterministic: invoking the help (or usage) path
twice in a row on a command appends two byte-identical blocks to stdout. -/
theorem C6_render_deterministic (c : Command) (io : Streams) :
    (helpInvoke (helpInvoke c io).1 (helpInvoke c io).2).2.stdout =
      io.stdout ++ helpRender c ++ helpRender c ∧
    (usageInvoke (usageInvoke c io).1.1 (usageInvoke c io).1.2).1.2.stdout =
      io.stdout ++ usageRender c ++ usageRender c := by
  constructor <;> simp [helpInvoke, usageInvoke, str_append_assoc]

/-- **C7.** Invoking the usage or help render function leaves the Command
unchanged and only appends the rendered text to stdout; stderr is
untouched. -/
theorem C7_render_frame (c : Command) (io : Streams) :
    (helpInvoke c io).1 = c ∧
    (helpInvoke c io).2.stdout = io.stdout ++ helpRender c ∧
    (helpInvoke c io).2.stderr = io.stderr ∧
    (usageInvoke c io).1.1 = c ∧
    (usageInvoke c io).1.2.stdout = io.stdout ++ usageRender c ∧
    (usageInvoke c io).1.2.stderr = io.stderr := by
  exact ⟨rfl, rfl, rfl, rfl, rfl, rfl⟩

/-- **C8, counterexample.** A `WithOptions` call can attach two Options with
the same first alias: the builders enforce no uniqueness. -/
theorem C8_duplicate_alias :
    dupAliasCmd.opts.map (fun o => o.args.headD "") = ["a", "a"] ∧
    ¬(dupAliasCmd.opts.map (fun o => o.args.headD "")).Nodup := by
  decide

/-- **C8, amended.** `WithOptions`, `WithValidOptions` and
`WithOptionsAndTemplate` append the passed Options to the `Opts` sequence in
order, with no uniqueness check on the first alias; duplicate canonical
aliases are possible. -/
theorem C8_options_appended (b : BuildState) (os : List Opt) :
    (withOptions b os).opts = b.opts ++ os ∧
    (withValidOptions b os).opts = b.opts ++ os ∧
    (withOptionsAndTemplate b os).opts = b.opts ++ os :=
  ⟨rfl, rfl, rfl⟩

/-- **C9, counterexample.** `NewDefaultViperCfg` does not treat a config
read error as fatal: it calls `ReadInConfig` on the viper object but
discards the error, returning the builder normally. -/
theorem C9_default_cfg_not_fatal :
    (newDefaultViperCfgB "boa" "/home/u/.config" (Except.ok "/cwd")
      (Except.error "Config File \"boa\" Not Found")).isOk = true ∧
    newDefaultViperCfgB "boa" "/home/u/.config" (Except.ok "/cwd")
      (Except.error "Config File \"boa\" Not Found") =
      CfgOutcome.ok { configPaths := ["/cwd", "/home/u/.config/boa"], configName := "boa" } := by
  exact ⟨rfl, rfl⟩

/-- **C9, amended.** `ReadConfig`, `ReadInConfig` and `ReadInConfigAndBuild`
log fatal on a read error; `NewDefaultViperCfg` discards the read error and
returns normally; `Build` performs no read at all, so a caller can build
first and handle the read error itself. -/
theorem C9_read_error_handling (b : ViperState) (e name xdg cwd : String)
    (r : Except String Unit) :
    readConfigB b (Except.error e) = CfgOutcome.fatal ("Error reading config: " ++ e) ∧
    readInConfigB b (Except.error e) = CfgOutcome.fatal ("Error reading in config: " ++ e) ∧
    readInConfigAndBuildB b (Except.error e) =
      CfgOutcome.fatal ("Error reading in config: " ++ e) ∧
    (newDefaultViperCfgB name xdg (Except.ok cwd) r).isOk = true ∧
    buildViper b = b :=
  ⟨rfl, rfl, rfl, rfl, rfl⟩

/-- **C10.** `WithValidOptions` (resp. `WithValidProfiles`) first appends the
new options (profiles) and then appends to `ValidArgs` the args of every
option (profile) then attached — the old ones included — so a second call
re-appends the earlier options' args, and every arg of an option attached by
an earlier `WithValidOptions` call occurs at least twice afterwards. -/
theorem C10_validargs_reappended (b : BuildState) (os : List Opt) (ps : List Profile)
    (o : Opt) (p : Profile) (a x : String) (ha : a ∈ o.args) (hx : x ∈ p.args) :
    (withValidOptions b os).validArgs =
      b.validArgs ++ b.opts.flatMap (·.args) ++ os.flatMap (·.args) ∧
    (withValidProfiles b ps).validArgs =
      b.validArgs ++ b.profiles.flatMap (·.args) ++ ps.flatMap (·.args) ∧
    2 ≤ ((withValidOptions (withValidOptions b [o]) os).validArgs).count a ∧
    2 ≤ ((withValidProfiles (withValidProfiles b [p]) ps).validArgs).count x := by
  refine ⟨?_, ?_, ?_, ?_⟩
  · simp [withValidOptions, List.flatMap_append, List.append_assoc]
  · simp [withValidProfiles, List.flatMap_append, List.append_assoc]
  · have h1 : a ∈ (b.opts ++ [o]).flatMap (·.args) :=
      List.mem_flatMap.2 ⟨o, by simp, ha⟩
    have h2 : a ∈ ((b.opts ++ [o]) ++ os).flatMap (·.args) :=
      List.mem_flatMap.2 ⟨o, by simp, ha⟩
    have c1 := List.count_pos_iff.2 h1
    have c2 := List.count_pos_iff.2 h2
    simp only [withValidOptions, List.count_append]
    omega
  · have h1 : x ∈ (b.profiles ++ [p]).flatMap (·.args) :=
      List.mem_flatMap.2 ⟨p, by simp, hx⟩
    have h2 : x ∈ ((b.profiles ++ [p]) ++ ps).flatMap (·.args) :=
      List.mem_flatMap.2 ⟨p, by simp, hx⟩
    have c1 := List.count_pos_iff.2 h1
    have c2 := List.count_pos_iff.2 h2
    simp only [withValidProfiles, List.count_append]
    omega

/-- Witness for C10 at a concrete builder sequence. -/
theorem C10_validargs_reappended_witness :
    (withValidOptions (newCmd "install") []).validArgs =
      (newCmd "install").validArgs ++ (newCmd "install").opts.flatMap (·.args) ++
        ([] : List Opt).flatMap (·.args) ∧
    (withValidProfiles (newCmd "install") []).validArgs =
      (newCmd "install").validArgs ++ (newCmd "install").profiles.flatMap (·.args) ++
        ([] : List Profile).flatMap (·.args) ∧
    2 ≤ ((withValidOptions (withValidOptions (newCmd "install")
      [{ args := ["kubectl"], desc := "install kubectl" }]) []).validArgs).count "kubectl" ∧
    2 ≤ ((withValidProfiles (withValidProfiles (newCmd "install")
      [{ args := ["core"], opts := ["kubectl"], desc := "core tools" }]) []).validArgs).count
        "core" :=
  C10_validargs_reappended (newCmd "install") [] []
    { args := ["kubectl"], desc := "install kubectl" }
    { args := ["core"], opts := ["kubectl"], desc := "core tools" }
    "kubectl" "core" (by decide) (by decide)

end Boa
